import Mathlib

/-!
Verification development for the rawfeedhub-upload ingestion pipelines.

The definitions below are a shallow embedding of the two loader pipelines:

* the raw-material pipeline (`RAWFEED-HUB-RAW-MATERIAL-UPLOAD`):
  `core/db.py` (store schema and `check_and_insert`) and
  `core/data_processing.py` (`RMProcessor`), plus the watcher in `app/main.py`;
* the finished-product pipeline (`RAWFEED-HUB-FP-UPLOAD`):
  `app/models/fp_anaysis_model.py` (per-model `upsert`) and
  `app/services/data_processing.py` (`FPProcessor`), plus
  `app/services/data_cleansing.py` (`CleanFile.clean_dataframe`) and the
  raw-material normalizer `core/clean_data.py` (`enforce_data_types`).

Modelling conventions:
* a pandas cell is a `Cell` (null / string / number / date); numbers are
  rationals (`pd.to_numeric` float parsing is abstracted by `parseDecimal`,
  a plain decimal-literal parser);
* uuid4 surrogate keys are modelled by a `Nat` counter threaded through the
  run: each generated id is fresh, which is the only property of uuid4 the
  code relies on;
* the relational store is a record of lists of rows, one list per table, in
  insertion order; unique and NOT NULL constraints from the declared schema
  are enforced by the insert/upsert functions, which return `Except DBErr`
  exactly where the Python call can raise;
* per-row store failures that the schema cannot produce (connection loss,
  constraints outside the model) are injected through a failure oracle so
  that the error-handling paths of the code are exercised.
-/

/-- A single pandas cell: missing (`NaN`/`None`), text, numeric, or date. -/
inductive Cell where
  | null : Cell
  | str : String → Cell
  | num : ℚ → Cell
  | date : Nat → Cell
deriving DecidableEq, Repr

/-- Value of a decimal digit character, `none` for any other character. -/
def digit? (c : Char) : Option Nat :=
  if c.isDigit then some (c.toNat - 48) else none

/-- Parse a nonempty all-digit character run as a natural number. -/
def parseNatDigits (cs : List Char) : Option Nat :=
  if cs.isEmpty then none
  else
    cs.foldl
      (fun acc c =>
        match acc, digit? c with
        | some n, some d => some (n * 10 + d)
        | _, _ => none)
      (some 0)

/-- Split a character list at every dot. -/
def splitDot : List Char → List (List Char)
  | [] => [[]]
  | c :: cs =>
    let r := splitDot cs
    if c = '.' then [] :: r
    else
      match r with
      | h :: t => (c :: h) :: t
      | [] => [[c]]

/-- Unsigned decimal literal: digits with an optional single dot
(both sides nonempty; forms like `1.` or `.5` are outside the abstraction). -/
def parseUnsigned (cs : List Char) : Option ℚ :=
  match splitDot cs with
  | [a] => (parseNatDigits a).map (fun n => (n : ℚ))
  | [a, b] =>
    match parseNatDigits a, parseNatDigits b with
    | some x, some y => some ((x : ℚ) + (y : ℚ) / ((10 : ℚ) ^ b.length))
    | _, _ => none
  | _ => none

/-- Decimal-literal parser standing in for Python float parsing of strings:
digits, an optional single dot, an optional leading minus. -/
def parseDecimal (s : String) : Option ℚ :=
  match s.toList with
  | '-' :: rest => (parseUnsigned rest).map Neg.neg
  | cs => parseUnsigned cs

/-- `pd.to_numeric(value, errors='coerce')` on one cell: numbers pass through,
strings are parsed, anything else (null, dates) coerces to NaN, i.e. `none`. -/
def toNumeric : Cell → Option ℚ
  | Cell.null => none
  | Cell.str s => parseDecimal s
  | Cell.num q => some q
  | Cell.date _ => none

/-- Rounding to two decimal places, as in `Series.round(2)`. -/
def round2 (q : ℚ) : ℚ := (round (q * 100) : ℚ) / 100

/-- `DataFrame.drop_duplicates()` on an already-projected list of rows:
keep the first occurrence of each value. -/
def dedupFirst [DecidableEq β] (l : List β) : List β :=
  l.foldl (fun acc b => if b ∈ acc then acc else acc ++ [b]) []

/-- A Python dict comprehension `{key(x): val(x) for x in l}`: the last
occurrence of a key wins. -/
def dictLast (key : α → String) (val : α → Nat) (l : List α) : String → Option Nat :=
  fun k => l.foldl (fun acc x => if key x = k then some (val x) else acc) none

/-- Draw one fresh surrogate id per element, starting at `g`
(models the `uuid4()` call in each constructed entity). -/
def assignIds (mk : Nat → β → γ) (g : Nat) : List β → List γ
  | [] => []
  | b :: l => mk g b :: assignIds mk (g + 1) l

/-- Counter value after `assignIds` over a list of length `n`. -/
def genAfter (g : Nat) (l : List β) : Nat := g + l.length

/-! ## Raw-material pipeline: store schema (`core/db.py`) -/

/-- A store-level error raised by `session.execute`/`session.commit`. -/
inductive DBErr where
  | integrity : DBErr
  | other : DBErr
deriving DecidableEq, Repr

/-- Row of `raw_material.materials`: surrogate id, unique `material_code`,
NOT NULL `material_description`. -/
structure MaterialRow where
  material_id : Nat
  material_code : String
  material_description : Cell
deriving DecidableEq, Repr

/-- Row of `raw_material.plants`: surrogate id, unique `plant`,
NOT NULL `plant_name`. -/
structure PlantRow where
  plant_id : Nat
  plant : String
  plant_name : Cell
deriving DecidableEq, Repr

/-- Row of `raw_material.vendors`: surrogate id, unique `vendor_code`,
NOT NULL `vendor_name`. -/
structure VendorRow where
  vendor_id : Nat
  vendor_code : String
  vendor_name : Cell
deriving DecidableEq, Repr

/-- Row of `raw_material.samples`. The only unique constraint is the
`sample_id` primary key; `sample_no` and `valuation_date` carry no
uniqueness in the declared schema. `valuation_date` is NOT NULL. -/
structure SampleRow where
  sample_id : Nat
  material_id : Nat
  plant_id : Nat
  vendor_id : Nat
  sample_no : String
  inspection_lot : Cell
  batch_no : Cell
  material_doc : Cell
  valuation_date : Option Nat
deriving DecidableEq, Repr

/-- Row of `raw_material.analysis_results`. The only unique constraint is
the `result_id` primary key. -/
structure ARRow where
  result_id : Nat
  sample_id : Nat
  analysis_parameter : String
  analysis_value : ℚ
  valuation_date : Option Nat
deriving DecidableEq, Repr

/-- Row of `raw_material.material_sources`; `plant_origin`, `producer` and
`country` are NOT NULL, `original_batch` is nullable. The only unique
constraint is the `source_id` primary key. -/
structure MSRow where
  source_id : Nat
  sample_id : Nat
  plant_origin : Cell
  producer : Cell
  country : Cell
  original_batch : Cell
  valuation_date : Option Nat
deriving DecidableEq, Repr

/-- The raw-material store: one list per table, in insertion order. -/
structure RMStore where
  materials : List MaterialRow
  plants : List PlantRow
  vendors : List VendorRow
  samples : List SampleRow
  analysisResults : List ARRow
  materialSources : List MSRow
deriving DecidableEq, Repr

/-- The empty raw-material store. -/
def RMStore.empty : RMStore := ⟨[], [], [], [], [], []⟩

/-!
Each `insert...` function is the effect of one
`INSERT ... ON CONFLICT DO NOTHING` statement issued by `check_and_insert`
(`core/db.py`, called with the default `update_on_conflict=False`):
a NOT NULL violation raises `IntegrityError`; a conflict with any unique
constraint makes the statement do nothing; otherwise the row is appended.
-/

/-- Insert into `materials` (unique `material_code`, PK `material_id`). -/
def insertMaterial (r : MaterialRow) (s : RMStore) : Except DBErr RMStore :=
  if r.material_description = Cell.null then .error .integrity
  else if s.materials.any (fun m =>
      m.material_id = r.material_id ∨ m.material_code = r.material_code) then .ok s
  else .ok { s with materials := s.materials ++ [r] }

/-- Insert into `plants` (unique `plant`, PK `plant_id`). -/
def insertPlant (r : PlantRow) (s : RMStore) : Except DBErr RMStore :=
  if r.plant_name = Cell.null then .error .integrity
  else if s.plants.any (fun p => p.plant_id = r.plant_id ∨ p.plant = r.plant) then .ok s
  else .ok { s with plants := s.plants ++ [r] }

/-- Insert into `vendors` (unique `vendor_code`, PK `vendor_id`). -/
def insertVendor (r : VendorRow) (s : RMStore) : Except DBErr RMStore :=
  if r.vendor_name = Cell.null then .error .integrity
  else if s.vendors.any (fun v =>
      v.vendor_id = r.vendor_id ∨ v.vendor_code = r.vendor_code) then .ok s
  else .ok { s with vendors := s.vendors ++ [r] }

/-- Insert into `samples` (PK `sample_id` is the only unique constraint;
`valuation_date` NOT NULL). -/
def insertSample (r : SampleRow) (s : RMStore) : Except DBErr RMStore :=
  if r.valuation_date = none then .error .integrity
  else if s.samples.any (fun x => x.sample_id = r.sample_id) then .ok s
  else .ok { s with samples := s.samples ++ [r] }

/-- Insert into `analysis_results` (PK `result_id` is the only unique
constraint; `valuation_date` NOT NULL). -/
def insertAR (r : ARRow) (s : RMStore) : Except DBErr RMStore :=
  if r.valuation_date = none then .error .integrity
  else if s.analysisResults.any (fun x => x.result_id = r.result_id) then .ok s
  else .ok { s with analysisResults := s.analysisResults ++ [r] }

/-- Insert into `material_sources` (PK `source_id` is the only unique
constraint; `plant_origin`, `producer`, `country`, `valuation_date` NOT NULL). -/
def insertMS (r : MSRow) (s : RMStore) : Except DBErr RMStore :=
  if r.plant_origin = Cell.null ∨ r.producer = Cell.null ∨ r.country = Cell.null
      ∨ r.valuation_date = none then .error .integrity
  else if s.materialSources.any (fun x => x.source_id = r.source_id) then .ok s
  else .ok { s with materialSources := s.materialSources ++ [r] }

/-- The body of `check_and_insert` that sits inside its `try`: execute the
statement and commit. A store-level failure injected by the oracle
(`fail = true`) models an unexpected error from the session. -/
def rmWriteBody (fail : Bool) (ins : RMStore → Except DBErr RMStore)
    (s : RMStore) : Except DBErr RMStore :=
  if fail then .error .other else ins s

/-- `check_and_insert` (`core/db.py` lines 91-115): the body runs inside
`try`; on `IntegrityError` or any other exception the session is rolled
back to the last committed state and the function returns normally.
The `Except` in the result type is the channel through which an exception
would propagate to the caller; the error branches map it back to `.ok`. -/
def rmCheckAndInsertE (fail : Bool) (ins : RMStore → Except DBErr RMStore)
    (s : RMStore) : Except DBErr RMStore :=
  match rmWriteBody fail ins s with
  | .ok s' => .ok s'
  | .error _ => .ok s

/-- Committed store after one `check_and_insert` call
(total because `rmCheckAndInsertE` never returns an error). -/
def rmApplyWrite (fail : Bool) (ins : RMStore → Except DBErr RMStore)
    (s : RMStore) : RMStore :=
  match rmCheckAndInsertE fail ins s with
  | .ok s' => s'
  | .error _ => s

/-! ## Raw-material pipeline: `RMProcessor` (`core/data_processing.py`) -/

/-- One row of the normalized parquet table loaded by `RMProcessor.load_data`.
`analysis` gives the cell of each analysis-parameter column. -/
structure RMRow where
  sample_no : String
  material_code : String
  material_description : Cell
  plant : String
  plant_name : Cell
  vendor_code : String
  vendor_name : Cell
  inspection_lot : Cell
  batch_no : Cell
  material_doc : Cell
  valuation_date : Option Nat
  producer : Cell
  country : Cell
  original_batch : Cell
  analysis : String → Cell

/-- The fixed list of analysis-parameter columns melted by
`RMProcessor.prepare_analysis_results`. -/
def analysisColumns : List String :=
  ["moisture", "ash", "protein", "fat", "fiber", "p", "ca", "insoluble", "nacl",
   "ffa", "ua", "kohps", "brix", "pepsin", "pepsin0002", "ndf", "adf",
   "adl", "eth", "t_fat", "tvn", "nh3", "starch", "iv", "pv", "av",
   "totox", "p_anisidine", "xanthophyll", "ac_insol", "gluten", "sulfer", "sulfate"]

/-- `prepare_materials`: project `(material_code, material_description)`,
drop duplicates, and build one transient `Material` per pair with a fresh id. -/
def rmPrepareMaterials (data : List RMRow) (g : Nat) : List MaterialRow :=
  assignIds (fun i p => ⟨i, p.1, p.2⟩) g
    (dedupFirst (data.map (fun r => (r.material_code, r.material_description))))

/-- `prepare_plants`: project `(plant, plant_name)`, drop duplicates,
build transient `Plant` rows. -/
def rmPreparePlants (data : List RMRow) (g : Nat) : List PlantRow :=
  assignIds (fun i p => ⟨i, p.1, p.2⟩) g
    (dedupFirst (data.map (fun r => (r.plant, r.plant_name))))

/-- `prepare_vendors`: project `(vendor_code, vendor_name)`, drop duplicates,
build transient `Vendor` rows. -/
def rmPrepareVendors (data : List RMRow) (g : Nat) : List VendorRow :=
  assignIds (fun i p => ⟨i, p.1, p.2⟩) g
    (dedupFirst (data.map (fun r => (r.vendor_code, r.vendor_name))))

/-- The eight sample columns projected by `prepare_samples`. -/
structure RMSampleProj where
  sample_no : String
  material_code : String
  plant : String
  vendor_code : String
  inspection_lot : Cell
  batch_no : Cell
  material_doc : Cell
  valuation_date : Option Nat
deriving DecidableEq, Repr

/-- `prepare_samples`: project the eight sample columns, drop duplicates,
keep only rows whose `material_code`/`plant`/`vendor_code` resolve in the
given maps, and build one transient `Sample` per kept row with a fresh id. -/
def rmPrepareSamples (data : List RMRow)
    (mmap pmap vmap : String → Option Nat) (g : Nat) : List SampleRow :=
  assignIds (fun i mk => mk i) g
    ((dedupFirst (data.map (fun r =>
        (⟨r.sample_no, r.material_code, r.plant, r.vendor_code,
          r.inspection_lot, r.batch_no, r.material_doc, r.valuation_date⟩ : RMSampleProj)))).filterMap
      (fun p =>
        match mmap p.material_code, pmap p.plant, vmap p.vendor_code with
        | some mi, some pi, some vi =>
          some (fun i => (⟨i, mi, pi, vi, p.sample_no, p.inspection_lot,
                          p.batch_no, p.material_doc, p.valuation_date⟩ : SampleRow))
        | _, _, _ => none))

/-- One melted record: `(sample_no, valuation_date, parameter, value)`. -/
structure MeltRow where
  sample_no : String
  valuation_date : Option Nat
  param : String
  value : Cell
deriving DecidableEq, Repr

/-- A melted record whose value survived `pd.to_numeric`. -/
structure MeltNum where
  sample_no : String
  valuation_date : Option Nat
  param : String
  value : ℚ
deriving DecidableEq, Repr

/-- `DataFrame.melt` over the analysis columns: for each parameter column
(in column order) one record per data row. -/
def rmMelt (data : List RMRow) : List MeltRow :=
  analysisColumns.flatMap (fun p =>
    data.map (fun r => ⟨r.sample_no, r.valuation_date, p, r.analysis p⟩))

/-- The melt followed by `dropna(subset=['analysis_value', 'sample_no'])`,
`pd.to_numeric(..., errors='coerce')` and the second `dropna`: a record
survives iff its value is non-null and parses as a number
(`sample_no` is a non-null string in this model). -/
def rmMeltFiltered (data : List RMRow) : List MeltNum :=
  ((rmMelt data).filter (fun mr => mr.value ≠ Cell.null)).filterMap
    (fun mr => (toNumeric mr.value).map (fun q => ⟨mr.sample_no, mr.valuation_date, mr.param, q⟩))

/-- `prepare_analysis_results`: keep melted records whose `sample_no` is a
key of `samples_map` and build one transient `AnalysisResult` per record,
with a fresh `result_id` and the `sample_id` looked up **by `sample_no`
alone** in `samples_map`. -/
def rmPrepareAnalysisResults (data : List RMRow)
    (smap : String → Option Nat) (g : Nat) : List ARRow :=
  assignIds (fun i mk => mk i) g
    ((rmMeltFiltered data).filterMap (fun mr =>
      (smap mr.sample_no).map (fun sid =>
        fun i => (⟨i, sid, mr.param, mr.value, mr.valuation_date⟩ : ARRow))))

/-- The six columns projected by `prepare_material_sources`. -/
structure RMSourceProj where
  sample_no : String
  valuation_date : Option Nat
  plant_name : Cell
  producer : Cell
  country : Cell
  original_batch : Cell
deriving DecidableEq, Repr

/-- `prepare_material_sources`: project, drop duplicates, keep rows with at
least one non-null provenance field and a non-null `valuation_date`, then
build transient `MaterialSource` rows for resolvable `sample_no`s
(again resolved by `sample_no` alone). -/
def rmPrepareMaterialSources (data : List RMRow)
    (smap : String → Option Nat) (g : Nat) : List MSRow :=
  assignIds (fun i mk => mk i) g
    ((((dedupFirst (data.map (fun r =>
          (⟨r.sample_no, r.valuation_date, r.plant_name, r.producer,
            r.country, r.original_batch⟩ : RMSourceProj)))).filter
        (fun p => ¬ (p.plant_name = Cell.null ∧ p.producer = Cell.null
          ∧ p.country = Cell.null ∧ p.original_batch = Cell.null))).filter
        (fun p => p.valuation_date ≠ none)).filterMap
      (fun p => (smap p.sample_no).map (fun sid =>
        fun i => (⟨i, sid, p.plant_name, p.producer, p.country,
                   p.original_batch, p.valuation_date⟩ : MSRow))))

/-- Per-row store-failure oracle: injects the unexpected session errors
(beyond the modelled schema constraints) that `check_and_insert` may meet. -/
structure RMOracle where
  failMaterial : MaterialRow → Bool
  failPlant : PlantRow → Bool
  failVendor : VendorRow → Bool
  failSample : SampleRow → Bool
  failAR : ARRow → Bool
  failMS : MSRow → Bool

/-- The all-success oracle: a normally behaving store. -/
def RMOracle.none : RMOracle :=
  ⟨fun _ => false, fun _ => false, fun _ => false,
   fun _ => false, fun _ => false, fun _ => false⟩

/-- `insert_to_db`: the materials write loop
(one `check_and_insert` per prepared row, each committing on its own). -/
def rmInsertMaterials (o : RMOracle) (rows : List MaterialRow) (s : RMStore) : RMStore :=
  rows.foldl (fun st m => rmApplyWrite (o.failMaterial m) (insertMaterial m) st) s

/-- `insert_to_db`: the plants write loop. -/
def rmInsertPlants (o : RMOracle) (rows : List PlantRow) (s : RMStore) : RMStore :=
  rows.foldl (fun st p => rmApplyWrite (o.failPlant p) (insertPlant p) st) s

/-- `insert_to_db`: the vendors write loop. -/
def rmInsertVendors (o : RMOracle) (rows : List VendorRow) (s : RMStore) : RMStore :=
  rows.foldl (fun st v => rmApplyWrite (o.failVendor v) (insertVendor v) st) s

/-- `insert_to_db`: the samples write loop. -/
def rmInsertSamples (o : RMOracle) (rows : List SampleRow) (s : RMStore) : RMStore :=
  rows.foldl (fun st x => rmApplyWrite (o.failSample x) (insertSample x) st) s

/-- `insert_to_db`: the analysis-results write loop. -/
def rmInsertARs (o : RMOracle) (rows : List ARRow) (s : RMStore) : RMStore :=
  rows.foldl (fun st x => rmApplyWrite (o.failAR x) (insertAR x) st) s

/-- `insert_to_db`: the material-sources write loop. -/
def rmInsertMSs (o : RMOracle) (rows : List MSRow) (s : RMStore) : RMStore :=
  rows.foldl (fun st x => rmApplyWrite (o.failMS x) (insertMS x) st) s

/-- `materials_map`: dict comprehension over `session.query(Material).all()`,
keyed by `material_code` (last row wins). -/
def materialsMap (s : RMStore) : String → Option Nat :=
  dictLast (fun m => m.material_code) (fun m => m.material_id) s.materials

/-- `plants_map`, keyed by `plant`. -/
def plantsMap (s : RMStore) : String → Option Nat :=
  dictLast (fun p => p.plant) (fun p => p.plant_id) s.plants

/-- `vendors_map`, keyed by `vendor_code`. -/
def vendorsMap (s : RMStore) : String → Option Nat :=
  dictLast (fun v => v.vendor_code) (fun v => v.vendor_id) s.vendors

/-- `samples_map`: keyed by `str(sample_no)` **alone** — the valuation date
is not part of the key (last row wins). -/
def samplesMap (s : RMStore) : String → Option Nat :=
  dictLast (fun x => x.sample_no) (fun x => x.sample_id) s.samples

/-- Store plus the uuid counter threaded through a run. -/
structure RMState where
  store : RMStore
  gen : Nat
deriving DecidableEq, Repr

/-- The initial state: empty store, counter zero. -/
def RMState.init : RMState := ⟨RMStore.empty, 0⟩

/-- `RMProcessor.insert_to_db` (lines 181-245): prepare and write materials,
plants, vendors; build the dimension maps from the store; prepare and write
samples; build `samples_map`; prepare and write analysis results and
material sources. Every row write goes through `check_and_insert`, which
commits it immediately and swallows store errors, so the function always
runs to the end (`session.commit()` at the end is a no-op on the already
committed session). -/
def rmInsertToDb (o : RMOracle) (data : List RMRow) (st : RMState) : RMState :=
  let mats := rmPrepareMaterials data st.gen
  let g1 := genAfter st.gen mats
  let s1 := rmInsertMaterials o mats st.store
  let plants := rmPreparePlants data g1
  let g2 := genAfter g1 plants
  let s2 := rmInsertPlants o plants s1
  let vendors := rmPrepareVendors data g2
  let g3 := genAfter g2 vendors
  let s3 := rmInsertVendors o vendors s2
  let samps := rmPrepareSamples data (materialsMap s3) (plantsMap s3) (vendorsMap s3) g3
  let g4 := genAfter g3 samps
  let s4 := rmInsertSamples o samps s3
  let ars := rmPrepareAnalysisResults data (samplesMap s4) g4
  let g5 := genAfter g4 ars
  let s5 := rmInsertARs o ars s4
  let mss := rmPrepareMaterialSources data (samplesMap s4) g5
  let g6 := genAfter g5 mss
  let s6 := rmInsertMSs o mss s5
  ⟨s6, g6⟩

/-- Where the watcher leaves the source file. -/
inductive FileLoc where
  | raw : FileLoc
  | complete : FileLoc
deriving DecidableEq, Repr

/-- `RawDataWatcherHandler.on_created` (`app/main.py` lines 73-91): process
the file with `insert_to_db`, then move it to the upload-complete folder.
The `except` branch (file left in `raw`) is reachable only through an
exception escaping `insert_to_db`; store write errors cannot reach it
because `check_and_insert` swallows them. -/
def rmOnCreated (o : RMOracle) (data : List RMRow) (st : RMState) : RMState × FileLoc :=
  (rmInsertToDb o data st, FileLoc.complete)

/-! ## Finished-product pipeline: models and upserts (`app/models/fp_anaysis_model.py`) -/

/-- Row of `finished_products.materials`: unique `material_code`,
NOT NULL description, nullable non-unique `material_old_code`. -/
structure FPMaterialRow where
  material_id : Nat
  material_code : String
  material_description : String
  material_old_code : Option String
deriving DecidableEq, Repr

/-- Row of `finished_products.plants`: unique `plant`, NOT NULL `plant_name`. -/
structure FPPlantRow where
  plant_id : Nat
  plant : String
  plant_name : Cell
deriving DecidableEq, Repr

/-- Row of `finished_products.formula`: unique `formula_name`. -/
structure FPFormulaRow where
  formula_id : Nat
  formula_name : String
deriving DecidableEq, Repr

/-- Row of `finished_products.samples`: composite primary key
`(sample_id, manufacturing_date)`; `sample_no` carries no uniqueness;
`manufacturing_date` and `load_time` are NOT NULL. -/
structure FPSampleRow where
  sample_id : Nat
  material_id : Nat
  plant_id : Nat
  formula_id : Nat
  sample_no : String
  inspection_lot : Cell
  truck_no : Cell
  pallet_no : Cell
  batch_no : Cell
  manufacturing_date : Option Nat
  bin_no : Cell
  load_time : Option Nat
  validation_code : Cell
  remark : Cell
deriving DecidableEq, Repr

/-- Row of `finished_products.analysis_results`: unique
`(sample_id, analysis_parameter, manufacturing_date)`. -/
structure FPARRow where
  result_id : Nat
  sample_id : Nat
  manufacturing_date : Nat
  analysis_parameter : String
  analysis_value : ℚ
deriving DecidableEq, Repr

/-- The finished-product store. -/
structure FPStore where
  materials : List FPMaterialRow
  plants : List FPPlantRow
  formulas : List FPFormulaRow
  samples : List FPSampleRow
  analysisResults : List FPARRow
deriving DecidableEq, Repr

/-- The empty finished-product store. -/
def FPStore.empty : FPStore := ⟨[], [], [], [], []⟩

/-- Python truthiness of the `material_old_code` kwarg:
`None` and the empty string are falsy. -/
def oldCodeTruthy : Option String → Bool
  | none => false
  | some s => s ≠ ""

/-- `Material.upsert` (lines 27-53): if the incoming `material_old_code` is
truthy and the first stored row carrying that old code has a different
`material_code`, the old code is popped from the insert (so a freshly
inserted row stores null there). Then
`INSERT ... ON CONFLICT (material_code) DO UPDATE` with `material_id` and
`material_old_code` excluded from the update set. -/
def fpMaterialUpsert (r : FPMaterialRow) (s : FPStore) : Except DBErr FPStore :=
  let old2 :=
    if oldCodeTruthy r.material_old_code then
      match s.materials.find? (fun m => m.material_old_code = r.material_old_code) with
      | some ex => if ex.material_code ≠ r.material_code then none else r.material_old_code
      | none => r.material_old_code
    else r.material_old_code
  if s.materials.any (fun m => m.material_code = r.material_code) then
    .ok { s with materials := s.materials.map (fun m =>
      if m.material_code = r.material_code then
        { m with material_description := r.material_description }
      else m) }
  else
    .ok { s with materials := s.materials ++
      [{ r with material_old_code := old2 }] }

/-- `Plants.upsert` (lines 66-79): `INSERT ... ON CONFLICT (plant) DO UPDATE`
with only `plant_id` excluded from the update set; a null `plant_name`
violates NOT NULL and raises. -/
def fpPlantsUpsert (r : FPPlantRow) (s : FPStore) : Except DBErr FPStore :=
  if r.plant_name = Cell.null then .error .integrity
  else if s.plants.any (fun p => p.plant = r.plant) then
    .ok { s with plants := s.plants.map (fun p =>
      if p.plant = r.plant then { p with plant_name := r.plant_name } else p) }
  else .ok { s with plants := s.plants ++ [r] }

/-- `Formula.upsert` (lines 94-107): conflict target `formula_name`. -/
def fpFormulaUpsert (r : FPFormulaRow) (s : FPStore) : Except DBErr FPStore :=
  if s.formulas.any (fun f => f.formula_name = r.formula_name) then .ok s
  else .ok { s with formulas := s.formulas ++ [r] }

/-- `Samples.upsert` (lines 135-152): conflict target is the composite
primary key `(sample_id, manufacturing_date)` — the freshly generated
`sample_id` is part of the conflict key. NOT NULL `manufacturing_date` and
`load_time` raise when absent. On conflict all columns except `sample_id`,
`manufacturing_date` and `created_at` are updated. -/
def fpSamplesUpsert (r : FPSampleRow) (s : FPStore) : Except DBErr FPStore :=
  if r.manufacturing_date = none ∨ r.load_time = none then .error .integrity
  else if s.samples.any (fun x =>
      x.sample_id = r.sample_id ∧ x.manufacturing_date = r.manufacturing_date) then
    .ok { s with samples := s.samples.map (fun x =>
      if x.sample_id = r.sample_id ∧ x.manufacturing_date = r.manufacturing_date then
        { r with sample_id := x.sample_id, manufacturing_date := x.manufacturing_date }
      else x) }
  else .ok { s with samples := s.samples ++ [r] }

/-- `AnalysisResults.upsert` (lines 180-197): conflict target
`(sample_id, analysis_parameter, manufacturing_date)`; on conflict all
columns except `result_id` and `created_at` are updated. -/
def fpARUpsert (r : FPARRow) (s : FPStore) : Except DBErr FPStore :=
  if s.analysisResults.any (fun x =>
      x.sample_id = r.sample_id ∧ x.analysis_parameter = r.analysis_parameter
        ∧ x.manufacturing_date = r.manufacturing_date) then
    .ok { s with analysisResults := s.analysisResults.map (fun x =>
      if x.sample_id = r.sample_id ∧ x.analysis_parameter = r.analysis_parameter
          ∧ x.manufacturing_date = r.manufacturing_date then
        { x with analysis_value := r.analysis_value }
      else x) }
  else .ok { s with analysisResults := s.analysisResults ++ [r] }

/-! ## Finished-product pipeline: `FPProcessor` (`app/services/data_processing.py`) -/

/-- One row of the cleaned finished-product table. -/
structure FPRow where
  sample_no : String
  material_code : String
  material_description : String
  material_old_code : String
  plant : String
  plant_name : Cell
  formula_name : String
  inspection_lot : Cell
  truck_no : Cell
  pallet_no : Cell
  batch_no : Cell
  manufacturing_date : Option Nat
  bin_no : Cell
  load_time : Option Nat
  validation_code : Cell
  remark : Cell
  analysis : String → Cell

/-- `numeric_cols` from `app/master_data/master_column.py`: the
analysis-parameter columns melted by `FPProcessor.prepare_analysis_results`. -/
def fpNumericCols : List String :=
  ["excptcp", "min_cp", "diff_cp", "diff_min", "moisture", "ash", "protein", "fat",
   "fiber", "p", "ca", "insoluble", "nacl", "na", "k", "fines", "durability",
   "t_fat", "bulk_density", "aw", "starch", "cook", "l_star", "a_star", "b_star",
   "hardness", "adf", "adl", "ndf"]

/-- `prepare_materials`: project the three material columns, drop duplicates,
turn a blank-after-strip `material_old_code` into null, and build transient
rows with fresh ids. -/
def fpPrepareMaterials (data : List FPRow) (g : Nat) : List FPMaterialRow :=
  assignIds (fun i p => ⟨i, p.1, p.2.1, if p.2.2.trim = "" then none else some p.2.2⟩) g
    (dedupFirst (data.map (fun r =>
      (r.material_code, r.material_description, r.material_old_code))))

/-- `prepare_plants`: `plant_name` is overridden by the static
`master_plants` lookup when the plant code is mapped, else the supplied
name is kept; then project `(plant, plant_name)` and drop duplicates.
The static table is passed in as `mp` (its literal content lives in
`app/master_data/master_plants.py`). -/
def fpPreparePlants (mp : String → Option String) (data : List FPRow)
    (g : Nat) : List FPPlantRow :=
  assignIds (fun i p => ⟨i, p.1, p.2⟩) g
    (dedupFirst (data.map (fun r =>
      (r.plant, match mp r.plant with
                | some n => Cell.str n
                | none => r.plant_name))))

/-- `prepare_formula`: project `formula_name`, drop duplicates. -/
def fpPrepareFormula (data : List FPRow) (g : Nat) : List FPFormulaRow :=
  assignIds (fun i n => ⟨i, n⟩) g
    (dedupFirst (data.map (fun r => r.formula_name)))

/-- The thirteen sample columns projected by `FPProcessor.prepare_samples`. -/
structure FPSampleProj where
  sample_no : String
  material_code : String
  plant : String
  formula_name : String
  manufacturing_date : Option Nat
  load_time : Option Nat
  inspection_lot : Cell
  truck_no : Cell
  pallet_no : Cell
  batch_no : Cell
  bin_no : Cell
  validation_code : Cell
  remark : Cell
deriving DecidableEq, Repr

/-- `prepare_samples`: project, drop duplicates, keep rows whose
`material_code`/`plant`/`formula_name` resolve, and build transient
`Samples` rows with fresh ids. -/
def fpPrepareSamples (data : List FPRow)
    (mmap pmap fmap : String → Option Nat) (g : Nat) : List FPSampleRow :=
  assignIds (fun i mk => mk i) g
    ((dedupFirst (data.map (fun r =>
        (⟨r.sample_no, r.material_code, r.plant, r.formula_name,
          r.manufacturing_date, r.load_time, r.inspection_lot, r.truck_no,
          r.pallet_no, r.batch_no, r.bin_no, r.validation_code,
          r.remark⟩ : FPSampleProj)))).filterMap
      (fun p =>
        match mmap p.material_code, pmap p.plant, fmap p.formula_name with
        | some mi, some pi, some fi =>
          some (fun i => (⟨i, mi, pi, fi, p.sample_no, p.inspection_lot,
                          p.truck_no, p.pallet_no, p.batch_no,
                          p.manufacturing_date, p.bin_no, p.load_time,
                          p.validation_code, p.remark⟩ : FPSampleRow))
        | _, _, _ => none))

/-- One melted finished-product record. -/
structure FPMeltNum where
  sample_no : String
  manufacturing_date : Nat
  param : String
  value : ℚ
deriving DecidableEq, Repr

/-- `FPProcessor.prepare_analysis_results` reshape: melt over
`fpNumericCols` with id columns `(sample_no, manufacturing_date)`, drop
records with a null value or null date, coerce the value to a number and
drop coercion failures. -/
def fpMeltFiltered (data : List FPRow) : List FPMeltNum :=
  (fpNumericCols.flatMap (fun p =>
    data.map (fun r => (r.sample_no, r.manufacturing_date, p, r.analysis p)))).filterMap
    (fun x =>
      match x.2.1, (if x.2.2.2 = Cell.null then none else toNumeric x.2.2.2) with
      | some d, some q => some ⟨x.1, d, x.2.2.1, q⟩
      | _, _ => none)

/-- `prepare_analysis_results`: keep melted records whose `sample_no` is in
`samples_map` (resolved by `sample_no` alone) and build transient
`AnalysisResults` rows with fresh ids. -/
def fpPrepareAnalysisResults (data : List FPRow)
    (smap : String → Option Nat) (g : Nat) : List FPARRow :=
  assignIds (fun i mk => mk i) g
    ((fpMeltFiltered data).filterMap (fun mr =>
      (smap mr.sample_no).map (fun sid =>
        fun i => (⟨i, sid, mr.manufacturing_date, mr.param, mr.value⟩ : FPARRow))))

/-- The write loop of one finished-product phase: each row's upsert commits
on its own (`session.commit()` inside `upsert`); the FP `check_and_insert`
logs and **re-raises**, so the first failure aborts the remaining rows of
the phase while the already committed rows stay in the store. -/
def fpFold (step : α → σ → Except DBErr σ) (rows : List α) (s : σ) : σ × Option DBErr :=
  match rows with
  | [] => (s, none)
  | r :: rs =>
    match step r s with
    | .ok s' => fpFold step rs s'
    | .error e => (s, some e)

/-- Per-row store-failure oracle for the finished-product pipeline. -/
structure FPOracle where
  failMaterial : FPMaterialRow → Bool
  failPlant : FPPlantRow → Bool
  failFormula : FPFormulaRow → Bool
  failSample : FPSampleRow → Bool
  failAR : FPARRow → Bool

/-- The all-success finished-product oracle. -/
def FPOracle.none : FPOracle :=
  ⟨fun _ => false, fun _ => false, fun _ => false, fun _ => false, fun _ => false⟩

/-- One finished-product write: either the injected failure or the upsert. -/
def fpStep (fail : Bool) (up : σ → Except DBErr σ) (s : σ) : Except DBErr σ :=
  if fail then .error .other else up s

/-- `materials_map` of the finished-product store. -/
def fpMaterialsMap (s : FPStore) : String → Option Nat :=
  dictLast (fun m => m.material_code) (fun m => m.material_id) s.materials

/-- `plants_map` of the finished-product store. -/
def fpPlantsMap (s : FPStore) : String → Option Nat :=
  dictLast (fun p => p.plant) (fun p => p.plant_id) s.plants

/-- `formulas_map` of the finished-product store. -/
def fpFormulasMap (s : FPStore) : String → Option Nat :=
  dictLast (fun f => f.formula_name) (fun f => f.formula_id) s.formulas

/-- `samples_map` of the finished-product store: keyed by `str(sample_no)`
**alone**, the manufacturing date is not part of the key. -/
def fpSamplesMap (s : FPStore) : String → Option Nat :=
  dictLast (fun x => x.sample_no) (fun x => x.sample_id) s.samples

/-- Finished-product store plus the uuid counter. -/
structure FPState where
  store : FPStore
  gen : Nat
deriving DecidableEq, Repr

/-- Initial finished-product state. -/
def FPState.init : FPState := ⟨FPStore.empty, 0⟩

/-- `FPProcessor.update_to_db` (lines 213-272): materials, plants,
dimension maps, formulas, formula map, samples, then analysis results,
each phase a loop of upserts. The first failing write aborts the rest of
the file (the exception propagates through `check_and_insert` and the
`except` branch re-raises after a no-op rollback of the already committed
session); rows committed before the failure remain in the store. -/
def fpUpdateToDb (mp : String → Option String) (o : FPOracle)
    (data : List FPRow) (st : FPState) : FPState × Option DBErr :=
  let mats := fpPrepareMaterials data st.gen
  let g1 := genAfter st.gen mats
  match fpFold (fun m s => fpStep (o.failMaterial m) (fpMaterialUpsert m) s) mats st.store with
  | (s1, some e) => (⟨s1, g1⟩, some e)
  | (s1, none) =>
    let plants := fpPreparePlants mp data g1
    let g2 := genAfter g1 plants
    match fpFold (fun p s => fpStep (o.failPlant p) (fpPlantsUpsert p) s) plants s1 with
    | (s2, some e) => (⟨s2, g2⟩, some e)
    | (s2, none) =>
      let mmap := fpMaterialsMap s2
      let pmap := fpPlantsMap s2
      let fors := fpPrepareFormula data g2
      let g3 := genAfter g2 fors
      match fpFold (fun f s => fpStep (o.failFormula f) (fpFormulaUpsert f) s) fors s2 with
      | (s3, some e) => (⟨s3, g3⟩, some e)
      | (s3, none) =>
        let fmap := fpFormulasMap s3
        let samps := fpPrepareSamples data mmap pmap fmap g3
        let g4 := genAfter g3 samps
        match fpFold (fun x s => fpStep (o.failSample x) (fpSamplesUpsert x) s) samps s3 with
        | (s4, some e) => (⟨s4, g4⟩, some e)
        | (s4, none) =>
          let ars := fpPrepareAnalysisResults data (fpSamplesMap s4) g4
          let g5 := genAfter g4 ars
          match fpFold (fun x s => fpStep (o.failAR x) (fpARUpsert x) s) ars s4 with
          | (s5, e) => (⟨s5, g5⟩, e)

/-- `FPProcessor.process_all_files` body for one file (lines 274-293):
`update_to_db`, then move the file to the complete folder; any exception is
caught and the file stays where it was. -/
def fpProcessFile (mp : String → Option String) (o : FPOracle)
    (data : List FPRow) (st : FPState) : FPState × FileLoc :=
  match fpUpdateToDb mp o data st with
  | (st', none) => (st', FileLoc.complete)
  | (st', some _) => (st', FileLoc.raw)

/-! ## Normalizers: `CleanFile.clean_dataframe` (FP) and `enforce_data_types` (RM) -/

/-- One cell of a numeric column under `pd.to_numeric(col, errors='coerce').round(2)`
(`app/services/data_cleansing.py` lines 32-36): best-effort parse, unparsable
becomes null, parsed values are rounded to two decimals. Total — never raises. -/
def fpCleanNumericCell (c : Cell) : Cell :=
  match toNumeric c with
  | some q => Cell.num (round2 q)
  | none => Cell.null

/-- A whole numeric column under the finished-product cleanser. -/
def fpCleanNumericColumn (col : List Cell) : List Cell :=
  col.map fpCleanNumericCell

/-- One cell under `Series.astype(float)`: numbers and nulls pass (NaN is a
float), parsable strings convert, anything else raises (`none`). -/
def astypeFloatCell : Cell → Option Cell
  | Cell.null => some Cell.null
  | Cell.num q => some (Cell.num q)
  | Cell.str s => (parseDecimal s).map Cell.num
  | Cell.date _ => none

/-- `List.mapM` over `Option`, written out structurally. -/
def mapO (f : α → Option β) : List α → Option (List β)
  | [] => some []
  | a :: l =>
    match f a, mapO f l with
    | some b, some bs => some (b :: bs)
    | _, _ => none

/-- A float-typed column under `enforce_data_types`
(`core/clean_data.py` lines 70-85): `astype(dtype, errors='ignore')` —
if every cell converts the column is cast (no rounding), and if any cell
fails the **entire column is returned unchanged**. Total — never raises. -/
def rmEnforceFloatColumn (col : List Cell) : List Cell :=
  match mapO astypeFloatCell col with
  | some col2 => col2
  | none => col

/-! ## Concrete instances used in the analysis -/

/-- A minimal well-formed raw-material data row: one sample with one
non-null analysis value (`moisture = 10`) and full provenance. -/
def rowC1 : RMRow :=
  { sample_no := "S1", material_code := "M1",
    material_description := Cell.str "Fish meal",
    plant := "P1", plant_name := Cell.str "Plant One",
    vendor_code := "V1", vendor_name := Cell.str "Vendor A",
    inspection_lot := Cell.null, batch_no := Cell.null, material_doc := Cell.null,
    valuation_date := some 20240101,
    producer := Cell.str "Producer", country := Cell.str "TH",
    original_batch := Cell.null,
    analysis := fun p => if p = "moisture" then Cell.num 10 else Cell.null }

/-- Data row: sample number `S`, known material `M1`, dated 2024-01-01,
with one analysis value `moisture = 5`. -/
def rowS1d1 : RMRow :=
  { rowC1 with
    sample_no := "S", valuation_date := some 20240101,
    producer := Cell.null, country := Cell.null,
    analysis := fun p => if p = "moisture" then Cell.num 5 else Cell.null }

/-- Data row: the **same** sample number `S` on a different date
2024-02-02, with no analysis values. -/
def rowS1d2 : RMRow :=
  { rowC1 with
    sample_no := "S", valuation_date := some 20240202,
    producer := Cell.null, country := Cell.null,
    analysis := fun _ => Cell.null }

/-- Data row: sample `S`, resolvable material `M1`, no analysis values. -/
def rowQ1 : RMRow :=
  { rowC1 with
    sample_no := "S", material_code := "M1",
    valuation_date := some 20240101,
    producer := Cell.null, country := Cell.null,
    analysis := fun _ => Cell.null }

/-- Data row: the same sample number `S` with material `M2` whose
description is null — the `M2` dimension insert violates NOT NULL, so
`M2` never reaches the resolved material map — and `moisture = 7`. -/
def rowQ2 : RMRow :=
  { rowC1 with
    sample_no := "S", material_code := "M2",
    material_description := Cell.null,
    valuation_date := some 20240202,
    producer := Cell.null, country := Cell.null,
    analysis := fun p => if p = "moisture" then Cell.num 7 else Cell.null }

/-- Data row whose single non-null analysis value is the unparsable text
`"abc"`. -/
def rowC8 : RMRow :=
  { rowC1 with
    analysis := fun p => if p = "moisture" then Cell.str "abc" else Cell.null }

/-- A sample map that resolves `S1` (to sample id 0). -/
def smapC8 : String → Option Nat := fun k => if k = "S1" then some 0 else none

/-- Claim-side count: number of analysis-parameter columns of a row whose
cell is non-null. -/
def nonNullParamCount (r : RMRow) : Nat :=
  (analysisColumns.filter (fun p => r.analysis p ≠ Cell.null)).length

/-- Number of analysis-parameter columns of a row whose cell parses as a
number under `pd.to_numeric`. -/
def parsableParamCount (r : RMRow) : Nat :=
  (analysisColumns.filter (fun p => (toNumeric (r.analysis p)).isSome)).length

/-- Finished-product analog of `parsableParamCount`. -/
def fpParsableParamCount (r : FPRow) : Nat :=
  (fpNumericCols.filter (fun p => (toNumeric (r.analysis p)).isSome)).length

/-- A minimal finished-product data row with one analysis value
(`protein = 3`). -/
def fpRowW : FPRow :=
  { sample_no := "F1", material_code := "M1",
    material_description := "Feed", material_old_code := "",
    plant := "P1", plant_name := Cell.str "Plant One",
    formula_name := "FRM", inspection_lot := Cell.null, truck_no := Cell.null,
    pallet_no := Cell.null, batch_no := Cell.null,
    manufacturing_date := some 20240101, bin_no := Cell.null,
    load_time := some 100, validation_code := Cell.null, remark := Cell.null,
    analysis := fun p => if p = "protein" then Cell.num 3 else Cell.null }

/-- Oracle failing every raw-material store write. -/
def rmOracleAllFail : RMOracle :=
  ⟨fun _ => true, fun _ => true, fun _ => true,
   fun _ => true, fun _ => true, fun _ => true⟩

/-! ## Helper lemmas -/

theorem assignIds_length (mk : Nat → β → γ) :
    ∀ (l : List β) (g : Nat), (assignIds mk g l).length = l.length := by
  intro l
  induction l with
  | nil => intro g; rfl
  | cons b t ih => intro g; simp [assignIds, ih]

theorem assignIds_map_core (mk : Nat → β → γ) (core : γ → δ) (val : β → δ) :
    ∀ (l : List β) (g : Nat), (∀ b ∈ l, ∀ i, core (mk i b) = val b) →
      (assignIds mk g l).map core = l.map val := by
  intro l
  induction l with
  | nil => intro g _; rfl
  | cons b t ih =>
    intro g h
    simp only [assignIds, List.map_cons]
    rw [h b (List.mem_cons_self b t) g, ih (g + 1) (fun x hx i => h x (List.mem_cons_of_mem b hx) i)]

theorem length_filterMap_isSome (F : α → Option β) :
    ∀ l : List α, (l.filterMap F).length = (l.filter (fun a => (F a).isSome)).length := by
  intro l
  induction l with
  | nil => rfl
  | cons a t ih =>
    cases h : F a <;>
      simp [List.filterMap_cons, List.filter_cons, h, ih]

/-! ## Claims -/

/-- C10: `check_and_insert` never propagates a store error: whatever the
write body does, the call returns normally (`.ok`); when the write fails
the session is rolled back to the previously committed store, making the
call indistinguishable from a successful no-op write at the call site; and
a loop of failing writes leaves the store untouched while still running to
completion, so the subsequent entity phases of `insert_to_db` proceed. -/
theorem rm_check_and_insert_swallows_errors :
    (∀ (fail : Bool) (ins : RMStore → Except DBErr RMStore) (s : RMStore),
      ∃ s', rmCheckAndInsertE fail ins s = .ok s') ∧
    (∀ (ins : RMStore → Except DBErr RMStore) (s : RMStore),
      rmCheckAndInsertE true ins s = .ok s ∧
      rmCheckAndInsertE true ins s = rmCheckAndInsertE false (fun t => .ok t) s) ∧
    (∀ (rows : List MaterialRow) (s : RMStore),
      rmInsertMaterials rmOracleAllFail rows s = s) := by
  refine ⟨?_, ?_, ?_⟩
  · intro fail ins s
    cases fail with
    | true => exact ⟨s, rfl⟩
    | false =>
      cases h : ins s with
      | ok s' => exact ⟨s', by simp [rmCheckAndInsertE, rmWriteBody, h]⟩
      | error e => exact ⟨s, by simp [rmCheckAndInsertE, rmWriteBody, h]⟩
  · intro ins s
    exact ⟨rfl, rfl⟩
  · intro rows
    induction rows with
    | nil => intro s; rfl
    | cons r t ih =>
      intro s
      simpa [rmInsertMaterials, List.foldl_cons] using ih (rmApplyWrite true (insertMaterial r) s)

/-- C1: the claimed idempotence fails on the code. Re-running the pipeline
on the same one-row file doubles the sample, analysis-result and
material-source row counts: the fact writes use freshly generated
surrogate ids as their only conflict keys (`result_id`, `source_id`,
`sample_id`), which never conflict, while only the dimension tables carry
natural-key uniqueness and stay deduplicated. -/
theorem rm_rerun_duplicates_facts :
    (rmInsertToDb RMOracle.none [rowC1] RMState.init).store.samples.length = 1 ∧
    (rmInsertToDb RMOracle.none [rowC1] RMState.init).store.analysisResults.length = 1 ∧
    (rmInsertToDb RMOracle.none [rowC1] RMState.init).store.materialSources.length = 1 ∧
    (rmInsertToDb RMOracle.none [rowC1]
      (rmInsertToDb RMOracle.none [rowC1] RMState.init)).store.samples.length = 2 ∧
    (rmInsertToDb RMOracle.none [rowC1]
      (rmInsertToDb RMOracle.none [rowC1] RMState.init)).store.analysisResults.length = 2 ∧
    (rmInsertToDb RMOracle.none [rowC1]
      (rmInsertToDb RMOracle.none [rowC1] RMState.init)).store.materialSources.length = 2 ∧
    (rmInsertToDb RMOracle.none [rowC1]
      (rmInsertToDb RMOracle.none [rowC1] RMState.init)).store.materials.length = 1 ∧
    (rmInsertToDb RMOracle.none [rowC1]
      (rmInsertToDb RMOracle.none [rowC1] RMState.init)).store.plants.length = 1 ∧
    (rmInsertToDb RMOracle.none [rowC1]
      (rmInsertToDb RMOracle.none [rowC1] RMState.init)).store.vendors.length = 1 := by
  decide

theorem insertMaterial_cases (r : MaterialRow) (s : RMStore) :
    insertMaterial r s = .error DBErr.integrity ∨ insertMaterial r s = .ok s ∨
    insertMaterial r s = .ok { s with materials := s.materials ++ [r] } := by
  unfold insertMaterial
  split
  · exact Or.inl rfl
  · split
    · exact Or.inr (Or.inl rfl)
    · exact Or.inr (Or.inr rfl)

theorem rmApplyWrite_materials_extend (fail : Bool) (r : MaterialRow) (s : RMStore) :
    s.materials <+: (rmApplyWrite fail (insertMaterial r) s).materials := by
  cases fail with
  | true => exact List.prefix_refl _
  | false =>
    rcases insertMaterial_cases r s with h | h | h <;>
      simp [rmApplyWrite, rmCheckAndInsertE, rmWriteBody, h]

/-- C2 counterexample: a materials phase whose second row's write fails
does **not** roll back the phase — the first row stays committed, so the
store holds a row of the failed phase. -/
theorem rm_phase_failure_keeps_committed_rows :
    rmInsertMaterials { RMOracle.none with failMaterial := fun m => m.material_id = 1 }
        [⟨0, "MA", Cell.str "desc a"⟩, ⟨1, "MB", Cell.str "desc b"⟩] RMStore.empty
      = { RMStore.empty with materials := [⟨0, "MA", Cell.str "desc a"⟩] } := by
  decide

/-- C2 amended: writes commit per row, not per phase. In the raw-material
pipeline a phase is sequential composition of single-row commits (splitting
the row list splits the phase) and committed rows are never rolled back by
later failures (the stored list only grows). In the finished-product
pipeline the first failing write aborts the remainder of the phase, the
state being exactly the fold over the longest failure-free prefix, and the
phase reports success iff no row failed. -/
theorem per_row_commit_not_per_phase :
    (∀ (o : RMOracle) (rows1 rows2 : List MaterialRow) (s : RMStore),
      rmInsertMaterials o (rows1 ++ rows2) s
        = rmInsertMaterials o rows2 (rmInsertMaterials o rows1 s)) ∧
    (∀ (o : RMOracle) (rows : List MaterialRow) (s : RMStore),
      s.materials <+: (rmInsertMaterials o rows s).materials) ∧
    (∀ (σ : Type) (fail : FPMaterialRow → Bool) (g : FPMaterialRow → σ → σ)
        (rows : List FPMaterialRow) (s : σ),
      (fpFold (fun r t => fpStep (fail r) (fun u => .ok (g r u)) t) rows s).1
          = (rows.takeWhile (fun r => !fail r)).foldl (fun t r => g r t) s ∧
      ((fpFold (fun r t => fpStep (fail r) (fun u => .ok (g r u)) t) rows s).2 = none
          ↔ ∀ r ∈ rows, fail r = false)) := by
  refine ⟨?_, ?_, ?_⟩
  · intro o rows1 rows2 s
    simp [rmInsertMaterials, List.foldl_append]
  · intro o rows
    induction rows with
    | nil => intro s; exact List.prefix_refl _
    | cons r t ih =>
      intro s
      exact List.IsPrefix.trans
        (rmApplyWrite_materials_extend (o.failMaterial r) r s)
        (ih (rmApplyWrite (o.failMaterial r) (insertMaterial r) s))
  · intro σ fail g rows
    induction rows with
    | nil => intro s; exact ⟨rfl, by simp [fpFold]⟩
    | cons r t ih =>
      intro s
      cases hf : fail r with
      | true =>
        constructor
        · simp [fpFold, fpStep, hf, List.takeWhile_cons]
        · simp only [fpFold, fpStep, hf, if_pos]
          constructor
          · intro h; cases h
          · intro h; exact absurd (h r (List.mem_cons_self r t)) (by simp [hf])
      | false =>
        constructor
        · simpa [fpFold, fpStep, hf, List.takeWhile_cons] using (ih (g r s)).1
        · simpa [fpFold, fpStep, hf] using (ih (g r s)).2

/-- C3 counterexample: in the raw-material pipeline a file **is** relocated
to the complete folder even though every analysis-result write failed
(no analysis row was committed while the sample row was): the store errors
are swallowed inside `check_and_insert`, so no exception reaches the
watcher and the move always happens. -/
theorem rm_fact_write_failure_still_relocates :
    (rmOnCreated { RMOracle.none with failAR := fun _ => true }
        [rowC1] RMState.init).2 = FileLoc.complete ∧
    (rmOnCreated { RMOracle.none with failAR := fun _ => true }
        [rowC1] RMState.init).1.store.analysisResults.length = 0 ∧
    (rmOnCreated { RMOracle.none with failAR := fun _ => true }
        [rowC1] RMState.init).1.store.samples.length = 1 := by
  decide

/-- C3 amended: a file is relocated exactly when the per-file processing
raises no exception. In the finished-product pipeline a failing write
propagates, so the file is moved iff every write succeeded; in the
raw-material pipeline store write failures are swallowed inside
`check_and_insert`, so the watcher relocates the file unconditionally —
even when fact-phase writes failed. -/
theorem relocation_tracks_exception_flow :
    (∀ (o : RMOracle) (data : List RMRow) (st : RMState),
      (rmOnCreated o data st).2 = FileLoc.complete) ∧
    (∀ (mp : String → Option String) (o : FPOracle) (data : List FPRow) (st : FPState),
      (fpProcessFile mp o data st).2 = FileLoc.complete
        ↔ (fpUpdateToDb mp o data st).2 = none) := by
  constructor
  · intro o data st
    rfl
  · intro mp o data st
    rcases h : fpUpdateToDb mp o data st with ⟨st', e⟩
    cases e <;> simp [fpProcessFile, h]

/-- C7 counterexample: in the raw-material pipeline an upsert whose natural
key already exists leaves the existing row's non-key columns at their old
values — `insert_to_db` always calls `check_and_insert` with
`update_on_conflict=False`, so the conflict does nothing: the description
stays `"old description"` instead of being updated. -/
theorem rm_upsert_conflict_updates_nothing :
    rmInsertMaterials RMOracle.none [⟨1, "M1", Cell.str "new description"⟩]
        { RMStore.empty with materials := [⟨0, "M1", Cell.str "old description"⟩] }
      = { RMStore.empty with materials := [⟨0, "M1", Cell.str "old description"⟩] } := by
  decide

/-- C7 amended: the conflict behaviour differs per pipeline. Raw-material:
`check_and_insert` is always invoked with `update_on_conflict=False`, so a
natural-key conflict leaves the stored row entirely unchanged.
Finished-product: `Plants.upsert` updates the non-key `plant_name` on
conflict while keeping the surrogate `plant_id`, and `Material.upsert`
updates the description while keeping both `material_id` and the stored
`material_old_code`. -/
theorem upsert_conflict_update_policy :
    (∀ (m m' : MaterialRow) (s : RMStore),
      m ∈ s.materials → m'.material_code = m.material_code →
      m'.material_description ≠ Cell.null →
      insertMaterial m' s = .ok s) ∧
    (∀ (p' : FPPlantRow) (s : FPStore),
      p'.plant_name ≠ Cell.null → (∃ p ∈ s.plants, p.plant = p'.plant) →
      fpPlantsUpsert p' s = .ok { s with plants := s.plants.map (fun q =>
        if q.plant = p'.plant then { q with plant_name := p'.plant_name } else q) }) ∧
    (∀ (r : FPMaterialRow) (s : FPStore),
      (∃ m ∈ s.materials, m.material_code = r.material_code) →
      fpMaterialUpsert r s = .ok { s with materials := s.materials.map (fun m =>
        if m.material_code = r.material_code then
          { m with material_description := r.material_description } else m) }) := by
  refine ⟨?_, ?_, ?_⟩
  · intro m m' s hm hcode hdesc
    have hany : (s.materials.any (fun x =>
        x.material_id = m'.material_id ∨ x.material_code = m'.material_code)) = true := by
      simp only [List.any_eq_true]
      exact ⟨m, hm, by simp [hcode.symm]⟩
    unfold insertMaterial
    rw [if_neg hdesc, if_pos hany]
  · intro p' s hname hex
    have hany : (s.plants.any (fun p => p.plant = p'.plant)) = true := by
      simp only [List.any_eq_true]
      obtain ⟨p, hp, hpp⟩ := hex
      exact ⟨p, hp, by simp [hpp]⟩
    unfold fpPlantsUpsert
    rw [if_neg hname, if_pos hany]
  · intro r s hex
    have hany : (s.materials.any (fun m => m.material_code = r.material_code)) = true := by
      simp only [List.any_eq_true]
      obtain ⟨m, hm, hmm⟩ := hex
      exact ⟨m, hm, by simp [hmm]⟩
    unfold fpMaterialUpsert
    rw [if_pos hany]

/-- C7 amended, instantiated at concrete stores. -/
theorem upsert_conflict_update_policy_witness :
    insertMaterial ⟨1, "M1", Cell.str "new"⟩
        { RMStore.empty with materials := [⟨0, "M1", Cell.str "old"⟩] }
      = .ok { RMStore.empty with materials := [⟨0, "M1", Cell.str "old"⟩] } ∧
    fpPlantsUpsert ⟨1, "P1", Cell.str "New Name"⟩
        ⟨[], [⟨0, "P1", Cell.str "Old Name"⟩], [], [], []⟩
      = .ok ⟨[], ([⟨0, "P1", Cell.str "Old Name"⟩].map (fun q =>
          if q.plant = "P1" then { q with plant_name := Cell.str "New Name" } else q)),
          [], [], []⟩ ∧
    fpMaterialUpsert ⟨1, "MX", "new", none⟩
        ⟨[⟨0, "MX", "old", some "OC"⟩], [], [], [], []⟩
      = .ok ⟨([⟨0, "MX", "old", some "OC"⟩].map (fun m =>
          if m.material_code = "MX" then { m with material_description := "new" } else m)),
          [], [], [], []⟩ :=
  ⟨upsert_conflict_update_policy.1 ⟨0, "M1", Cell.str "old"⟩ ⟨1, "M1", Cell.str "new"⟩
      { RMStore.empty with materials := [⟨0, "M1", Cell.str "old"⟩] }
      (by decide) rfl (by decide),
   upsert_conflict_update_policy.2.1 ⟨1, "P1", Cell.str "New Name"⟩
      ⟨[], [⟨0, "P1", Cell.str "Old Name"⟩], [], [], []⟩
      (by decide) ⟨⟨0, "P1", Cell.str "Old Name"⟩, by decide, rfl⟩,
   upsert_conflict_update_policy.2.2 ⟨1, "MX", "new", none⟩
      ⟨[⟨0, "MX", "old", some "OC"⟩], [], [], [], []⟩
      ⟨⟨0, "MX", "old", some "OC"⟩, by decide, rfl⟩⟩

/-- C6: the Material old-code conflict rule. If the store's first row
carrying `old_code = x` is `A` and `A.material_code` differs from the
incoming `B.material_code` (and no row already has `B`'s code), then
`Material.upsert` inserts `B` with a null `material_old_code` and leaves
every existing row — in particular `A` and its `old_code` — unchanged. -/
theorem fp_material_old_code_conflict_dropped
    (s : FPStore) (A : FPMaterialRow) (idB : Nat) (codeB descB x : String)
    (hx : x ≠ "")
    (hfind : s.materials.find? (fun m => m.material_old_code = some x) = some A)
    (hA : A.material_code ≠ codeB)
    (hfresh : ∀ m ∈ s.materials, m.material_code ≠ codeB) :
    fpMaterialUpsert ⟨idB, codeB, descB, some x⟩ s =
      .ok { s with materials := s.materials ++ [⟨idB, codeB, descB, none⟩] } := by
  have htr : oldCodeTruthy (some x) = true := by simp [oldCodeTruthy, hx]
  have hany : (s.materials.any (fun m => m.material_code = codeB)) = false := by
    simp only [List.any_eq_false]
    intro m hm
    simp [hfresh m hm]
  simp only [fpMaterialUpsert, htr, if_true, hfind, hany, hA, if_false]
  simp [hA]

/-- C6 instantiated: store holding only `A = ("A", old_code "X")`;
upserting `B = ("B", old_code "X")` appends `B` with a null old code. -/
theorem fp_material_old_code_conflict_dropped_witness :
    fpMaterialUpsert ⟨1, "B", "descB", some "X"⟩
        ⟨[⟨0, "A", "descA", some "X"⟩], [], [], [], []⟩
      = .ok ⟨[⟨0, "A", "descA", some "X"⟩, ⟨1, "B", "descB", none⟩], [], [], [], []⟩ :=
  fp_material_old_code_conflict_dropped
    ⟨[⟨0, "A", "descA", some "X"⟩], [], [], [], []⟩
    ⟨0, "A", "descA", some "X"⟩ 1 "B" "descB" "X"
    (by decide) (by decide) (by decide) (by decide)

/-- C4 counterexample: two input rows share `sample_no = "S"` on different
dates. The pipeline stores both samples (ids 3 and 4), but `samples_map`
keeps only the last id per `sample_no`, so the analysis result dated
2024-01-01 is attached to sample 4 — the sample dated 2024-02-02 — not to
the sample matching both `sample_no` and date. -/
theorem rm_ar_attached_to_wrong_dated_sample :
    (rmInsertToDb RMOracle.none [rowS1d1, rowS1d2] RMState.init).store.samples.map
        (fun x => (x.sample_id, x.sample_no, x.valuation_date))
      = [(3, "S", some 20240101), (4, "S", some 20240202)] ∧
    (rmInsertToDb RMOracle.none [rowS1d1, rowS1d2] RMState.init).store.analysisResults.map
        (fun ar => (ar.sample_id, ar.analysis_parameter, ar.valuation_date))
      = [(4, "moisture", some 20240101)] := by
  decide

/-- C4 amended: every produced AnalysisResult resolves its Sample foreign
key through the sample map by `sample_no` **alone** — the row's own date is
carried along but takes no part in the lookup. This holds in both
pipelines. -/
theorem ar_fk_resolved_by_sample_no_alone :
    (∀ (data : List RMRow) (smap : String → Option Nat) (g : Nat),
      (rmPrepareAnalysisResults data smap g).map
          (fun ar => (ar.sample_id, ar.analysis_parameter, ar.analysis_value, ar.valuation_date))
        = (rmMeltFiltered data).filterMap (fun mr =>
            (smap mr.sample_no).map (fun sid => (sid, mr.param, mr.value, mr.valuation_date)))) ∧
    (∀ (data : List FPRow) (smap : String → Option Nat) (g : Nat),
      (fpPrepareAnalysisResults data smap g).map
          (fun ar => (ar.sample_id, ar.manufacturing_date, ar.analysis_parameter, ar.analysis_value))
        = (fpMeltFiltered data).filterMap (fun mr =>
            (smap mr.sample_no).map (fun sid => (sid, mr.manufacturing_date, mr.param, mr.value)))) := by
  constructor
  · intro data smap g
    unfold rmPrepareAnalysisResults
    rw [assignIds_map_core (fun i (f : Nat → ARRow) => f i)
        (fun ar => (ar.sample_id, ar.analysis_parameter, ar.analysis_value, ar.valuation_date))
        (fun f => ((f 0).sample_id, (f 0).analysis_parameter, (f 0).analysis_value,
          (f 0).valuation_date)) _ g ?_]
    · rw [List.map_filterMap]
      congr 1
      funext mr
      cases h : smap mr.sample_no <;> simp [h]
    · intro f hf i
      obtain ⟨mr, _, hsome⟩ := List.mem_filterMap.mp hf
      obtain ⟨sid, _, hfeq⟩ := Option.map_eq_some'.mp hsome
      rw [← hfeq]
  · intro data smap g
    unfold fpPrepareAnalysisResults
    rw [assignIds_map_core (fun i (f : Nat → FPARRow) => f i)
        (fun ar => (ar.sample_id, ar.manufacturing_date, ar.analysis_parameter, ar.analysis_value))
        (fun f => ((f 0).sample_id, (f 0).manufacturing_date, (f 0).analysis_parameter,
          (f 0).analysis_value)) _ g ?_]
    · rw [List.map_filterMap]
      congr 1
      funext mr
      cases h : smap mr.sample_no <;> simp [h]
    · intro f hf i
      obtain ⟨mr, _, hsome⟩ := List.mem_filterMap.mp hf
      obtain ⟨sid, _, hfeq⟩ := Option.map_eq_some'.mp hsome
      rw [← hfeq]

/-- C5 counterexample: `rowQ2`'s `material_code = "M2"` never reaches the
resolved material map (its dimension insert violates NOT NULL), and its
sample row is indeed excluded — but its analysis value
(`moisture = 7`, dated 2024-02-02, which no other row carries) **is**
produced, because analysis-result suppression keys on `sample_no` alone
and the resolved row `rowQ1` shares `sample_no = "S"`. -/
theorem rm_unresolved_material_row_still_yields_ar :
    (rmInsertToDb RMOracle.none [rowQ1, rowQ2] RMState.init).store.materials.map
        (fun m => m.material_code) = ["M1"] ∧
    (rmInsertToDb RMOracle.none [rowQ1, rowQ2] RMState.init).store.samples.length = 1 ∧
    (rmInsertToDb RMOracle.none [rowQ1, rowQ2] RMState.init).store.analysisResults.map
        (fun ar => (ar.analysis_parameter, ar.analysis_value, ar.valuation_date))
      = [("moisture", 7, some 20240202)] := by
  decide

/-- C5 amended: a deduplicated sample row is kept iff all three dimension
references resolve (unresolved rows are silently dropped, the rest of the
batch is processed), and a melted analysis record is kept iff its
`sample_no` is a key of the sample map — so the would-be analysis rows of
an unresolved sample row are dropped only when no stored sample shares its
`sample_no`. -/
theorem unresolved_reference_skip_scope :
    (∀ (data : List RMRow) (mm pm vm : String → Option Nat) (g : Nat),
      (rmPrepareSamples data mm pm vm g).length
        = ((dedupFirst (data.map (fun r =>
            (⟨r.sample_no, r.material_code, r.plant, r.vendor_code,
              r.inspection_lot, r.batch_no, r.material_doc,
              r.valuation_date⟩ : RMSampleProj)))).filter
            (fun p => (mm p.material_code).isSome ∧ (pm p.plant).isSome
              ∧ (vm p.vendor_code).isSome)).length) ∧
    (∀ (data : List RMRow) (smap : String → Option Nat) (g : Nat),
      (rmPrepareAnalysisResults data smap g).length
        = ((rmMeltFiltered data).filter
            (fun mr => (smap mr.sample_no).isSome)).length) := by
  constructor
  · intro data mm pm vm g
    unfold rmPrepareSamples
    rw [assignIds_length, length_filterMap_isSome]
    congr 1
    apply List.filter_congr
    intro p _
    cases hm : mm p.material_code <;> cases hp : pm p.plant
      <;> cases hv : vm p.vendor_code <;> simp [hm, hp, hv]
  · intro data smap g
    unfold rmPrepareAnalysisResults
    rw [assignIds_length, length_filterMap_isSome]
    congr 1
    apply List.filter_congr
    intro mr _
    cases h : smap mr.sample_no <;> simp [h]

theorem flatMap_singleton_map (g : α → β) :
    ∀ l : List α, (l.flatMap (fun a => [g a])) = l.map g := by
  intro l
  induction l with
  | nil => rfl
  | cons a t ih => simp [List.flatMap_cons, ih]

theorem rmMeltFiltered_singleton (r : RMRow) :
    rmMeltFiltered [r] = analysisColumns.filterMap (fun p =>
      (toNumeric (r.analysis p)).map (fun q =>
        (⟨r.sample_no, r.valuation_date, p, q⟩ : MeltNum))) := by
  unfold rmMeltFiltered rmMelt
  simp only [List.map_cons, List.map_nil]
  rw [flatMap_singleton_map, List.filter_map, List.filterMap_map, List.filterMap_filter]
  congr 1
  funext p
  cases h : r.analysis p <;> simp [toNumeric, h]

theorem fpMeltFiltered_singleton (r : FPRow) (d : Nat) (hd : r.manufacturing_date = some d) :
    fpMeltFiltered [r] = fpNumericCols.filterMap (fun p =>
      (toNumeric (r.analysis p)).map (fun q =>
        (⟨r.sample_no, d, p, q⟩ : FPMeltNum))) := by
  unfold fpMeltFiltered
  simp only [List.map_cons, List.map_nil]
  rw [flatMap_singleton_map, List.filterMap_map]
  congr 1
  funext p
  cases h : r.analysis p with
  | null => simp [toNumeric, hd, h]
  | str s =>
    cases hp : parseDecimal s <;> simp [toNumeric, hd, h, hp]
  | num q => simp [toNumeric, hd, h]
  | date dd => simp [toNumeric, hd, h]

/-- C8 counterexample: `rowC8` has exactly one non-null recognized
analysis-parameter cell (`moisture = "abc"`), its `sample_no` resolves in
the sample map, yet zero AnalysisResult rows are produced — the non-null
but unparsable value is dropped by the numeric re-validation. -/
theorem nonnull_unparsable_value_yields_no_ar :
    nonNullParamCount rowC8 = 1 ∧
    rmPrepareAnalysisResults [rowC8] smapC8 0 = [] := by
  decide

/-- C8 amended: for a sample row whose `sample_no` resolves in the sample
map (and, in the FP pipeline, whose date is non-null), the wide-to-long
reshape produces exactly K AnalysisResult rows where K counts the
recognized parameter columns whose value **parses as a number** —
non-null unparsable values are dropped. -/
theorem reshape_count_equals_parsable_values :
    (∀ (r : RMRow) (smap : String → Option Nat) (sid g : Nat),
      smap r.sample_no = some sid →
      (rmPrepareAnalysisResults [r] smap g).length = parsableParamCount r) ∧
    (∀ (r : FPRow) (smap : String → Option Nat) (sid g d : Nat),
      smap r.sample_no = some sid → r.manufacturing_date = some d →
      (fpPrepareAnalysisResults [r] smap g).length = fpParsableParamCount r) := by
  constructor
  · intro r smap sid g hs
    unfold rmPrepareAnalysisResults
    rw [assignIds_length, length_filterMap_isSome, rmMeltFiltered_singleton]
    rw [List.filter_eq_self.mpr (by
      intro mr hmr
      obtain ⟨p, _, hsome⟩ := List.mem_filterMap.mp hmr
      obtain ⟨q, _, rfl⟩ := Option.map_eq_some'.mp hsome
      simp [hs])]
    rw [length_filterMap_isSome]
    unfold parsableParamCount
    congr 1
    apply List.filter_congr
    intro p _
    cases h : toNumeric (r.analysis p) <;> simp [h]
  · intro r smap sid g d hs hd
    unfold fpPrepareAnalysisResults
    rw [assignIds_length, length_filterMap_isSome, fpMeltFiltered_singleton r d hd]
    rw [List.filter_eq_self.mpr (by
      intro mr hmr
      obtain ⟨p, _, hsome⟩ := List.mem_filterMap.mp hmr
      obtain ⟨q, _, rfl⟩ := Option.map_eq_some'.mp hsome
      simp [hs])]
    rw [length_filterMap_isSome]
    unfold fpParsableParamCount
    congr 1
    apply List.filter_congr
    intro p _
    cases h : toNumeric (r.analysis p) <;> simp [h]

/-- C8 amended, instantiated: one parsable value on each side. -/
theorem reshape_count_equals_parsable_values_witness :
    (rmPrepareAnalysisResults [rowC1] smapC8 0).length = parsableParamCount rowC1 ∧
    (fpPrepareAnalysisResults [fpRowW]
        (fun k => if k = "F1" then some 0 else none) 0).length
      = fpParsableParamCount fpRowW :=
  ⟨reshape_count_equals_parsable_values.1 rowC1 smapC8 0 0 (by decide),
   reshape_count_equals_parsable_values.2 fpRowW
     (fun k => if k = "F1" then some 0 else none) 0 0 20240101 (by decide) (by decide)⟩

theorem mapO_eq_none_of_mem (f : α → Option β) :
    ∀ (l : List α) (a : α), a ∈ l → f a = none → mapO f l = none := by
  intro l
  induction l with
  | nil => intro a ha _; cases ha
  | cons x t ih =>
    intro a ha hf
    rcases List.mem_cons.mp ha with h | h
    · subst h; simp [mapO, hf]
    · cases hx : f x <;> simp [mapO, hx, ih a h hf]

/-- C9 counterexample, on the raw-material normalizer `enforce_data_types`:
a float-typed column holding the unparsable text `"abc"` is returned
**unchanged** (the text does not become null), and a parsed value like
`5/2` in the same column is also left as-is; moreover even a clean numeric
column is never rounded — `astype(float)` keeps `1.234`, while rounding to
two decimals would give `1.23`. -/
theorem rm_normalizer_neither_nulls_nor_rounds :
    rmEnforceFloatColumn [Cell.str "abc", Cell.num (5 / 2)]
      = [Cell.str "abc", Cell.num (5 / 2)] ∧
    rmEnforceFloatColumn [Cell.num (1234 / 1000)] = [Cell.num (1234 / 1000)] ∧
    round2 (1234 / 1000) ≠ 1234 / 1000 := by
  refine ⟨?_, ?_, ?_⟩
  · have h : parseDecimal "abc" = none := by decide
    simp [rmEnforceFloatColumn, mapO, astypeFloatCell, h]
  · simp [rmEnforceFloatColumn, mapO, astypeFloatCell]
  · norm_num [round2, round_eq]

/-- C9 amended: the finished-product cleanser behaves as claimed — on a
numeric column every unparsable cell becomes null and every parsed value
is rounded to two decimal places, never raising — while the raw-material
`enforce_data_types` does neither: a parsed float passes through
unrounded, and one unparsable cell leaves the whole column (unparsable
values included) unchanged; both normalizers are total functions. -/
theorem normalizer_numeric_column_behavior :
    (∀ c : Cell, toNumeric c = none → fpCleanNumericCell c = Cell.null) ∧
    (∀ (c : Cell) (q : ℚ), toNumeric c = some q →
      fpCleanNumericCell c = Cell.num (round2 q)) ∧
    (∀ (col : List Cell) (c : Cell), c ∈ col → astypeFloatCell c = none →
      rmEnforceFloatColumn col = col) ∧
    (∀ (col col2 : List Cell), mapO astypeFloatCell col = some col2 →
      rmEnforceFloatColumn col = col2) ∧
    (∀ q : ℚ, astypeFloatCell (Cell.num q) = some (Cell.num q)) := by
  refine ⟨?_, ?_, ?_, ?_, ?_⟩
  · intro c h
    unfold fpCleanNumericCell
    rw [h]
  · intro c q h
    unfold fpCleanNumericCell
    rw [h]
  · intro col c hc h
    unfold rmEnforceFloatColumn
    rw [mapO_eq_none_of_mem astypeFloatCell col c hc h]
  · intro col col2 h
    unfold rmEnforceFloatColumn
    rw [h]
  · intro q
    rfl

/-- C9 amended, instantiated on concrete cells and columns. -/
theorem normalizer_numeric_column_behavior_witness :
    fpCleanNumericCell (Cell.str "abc") = Cell.null ∧
    fpCleanNumericCell (Cell.num 2) = Cell.num (round2 2) ∧
    rmEnforceFloatColumn [Cell.str "abc", Cell.num 2] = [Cell.str "abc", Cell.num 2] ∧
    rmEnforceFloatColumn [Cell.num 2, Cell.null] = [Cell.num 2, Cell.null] ∧
    astypeFloatCell (Cell.num 2) = some (Cell.num 2) :=
  ⟨normalizer_numeric_column_behavior.1 (Cell.str "abc") (by decide),
   normalizer_numeric_column_behavior.2.1 (Cell.num 2) 2 (by decide),
   normalizer_numeric_column_behavior.2.2.1 [Cell.str "abc", Cell.num 2]
     (Cell.str "abc") (by decide) (by decide),
   normalizer_numeric_column_behavior.2.2.2.1 [Cell.num 2, Cell.null]
     [Cell.num 2, Cell.null] (by decide),
   normalizer_numeric_column_behavior.2.2.2.2 2⟩
